import Mathlib

/-!
Verification of the TeleTron checkpoint subsystem
(`src/teletron/train/checkpoint/checkpoint.py`).

The Python module is shallowly embedded: tensors, optimizer payloads and
scheduler payloads are opaque `Nat` values, Python dictionaries with a fixed
key set become structures whose `Option` fields record key presence, process
termination (`sys.exit`) and raised exceptions become `Except` errors, and
file-system paths are lists of path components.  Functions from the sibling
module `checkpoint/utils.py`, which is imported by the source but is not part
of the sources at hand, are modelled from the specification and carry a doc
comment saying so.
-/

instance {ε α : Type _} [DecidableEq ε] [DecidableEq α] : DecidableEq (Except ε α) :=
  fun a b =>
    match a, b with
    | .ok x, .ok y =>
        if h : x = y then .isTrue (by rw [h])
        else .isFalse (by intro hc; injection hc; exact h (by assumption))
    | .error x, .error y =>
        if h : x = y then .isTrue (by rw [h])
        else .isFalse (by intro hc; injection hc; exact h (by assumption))
    | .ok _, .error _ => .isFalse (by intro hc; exact Except.noConfusion hc)
    | .error _, .ok _ => .isFalse (by intro hc; exact Except.noConfusion hc)

namespace Teletron

/-! ## Wrapped modules and `unwrap_model` (checkpoint.py lines 29-44)

`ALL_MODULE_WRAPPER_CLASSNAMES = (DDP, Float16Module)`: a live model object is
either a bare module or one of the two wrapper classes holding an inner
`.module`.  The bare module carries its parameter payload as an opaque `Nat`. -/

inductive Module where
  | base (payload : Nat)
  | ddp (module : Module)
  | float16 (module : Module)
  deriving Repr, DecidableEq

/-- The check `isinstance(model_module, module_instances)` for
`module_instances = (DDP, Float16Module)`. -/
def Module.isWrapperInstance : Module → Bool
  | .base _ => false
  | .ddp _ => true
  | .float16 _ => true

/-- The `while isinstance(...): model_module = model_module.module` loop of
`unwrap_model` (lines 39-40), applied to one element. -/
def unwrapLoop : Module → Module
  | .base p => .base p
  | .ddp m => unwrapLoop m
  | .float16 m => unwrapLoop m

/-- Argument/result shape of `unwrap_model`: the Python function accepts either
a single module or a list of modules and mirrors the shape on return
(`return_list` flag, lines 33-36 and 42-44). -/
inductive ModelArg where
  | single (m : Module)
  | list (ms : List Module)
  deriving Repr, DecidableEq

/-- Embedding of `unwrap_model` (checkpoint.py lines 32-44): wrap a non-list input into a
one-element list, unwrap every element with the while-loop, and return either
the bare list or its sole element according to `return_list`. -/
def unwrap_model : ModelArg → ModelArg
  | .single m => .single (unwrapLoop m)
  | .list ms => .list (ms.map unwrapLoop)

/-- In-place `load_state_dict` on the module reached by unwrapping: the Python
loader mutates the inner module, which the enclosing wrappers keep pointing
at, so functionally the payload is replaced underneath the wrappers. -/
def Module.setPayload : Module → Nat → Module
  | .base _, p => .base p
  | .ddp m, p => .ddp (m.setPayload p)
  | .float16 m, p => .float16 (m.setPayload p)

/-- Payload of the bare module reached by unwrapping. -/
def Module.payload : Module → Nat
  | .base p => p
  | .ddp m => m.payload
  | .float16 m => m.payload

/-! ## RNG generators (checkpoint.py lines 66, 310-343)

One process holds four independent generators (`random`, `np.random`, `torch`,
`torch.cuda`) plus the named cuda-rng-tracker states
(`tensor_parallel.get_cuda_rng_tracker()`).  Generator states are opaque
`Nat`s; tracker states are a list of named states. -/

structure Generators where
  random_state : Nat
  np_state : Nat
  torch_state : Nat
  cuda_state : Nat
  tracker_states : List (String × Nat)
  deriving Repr, DecidableEq

/-- One `rng_state` element as written into a checkpoint: the dict built from
the five generator snapshots (keys `random_rng_state`, `np_rng_state`,
`torch_rng_state`, `cuda_rng_state`, `rng_tracker_states`). -/
structure RngState where
  random_rng_state : Nat
  np_rng_state : Nat
  torch_rng_state : Nat
  cuda_rng_state : Nat
  rng_tracker_states : List (String × Nat)
  deriving Repr, DecidableEq

/-- Snapshot the five generators of one process into an `RngState` dict. -/
def captureRng (g : Generators) : RngState :=
  ⟨g.random_state, g.np_state, g.torch_state, g.cuda_state, g.tracker_states⟩

/-- The generator states after `random.setstate` / `np.random.set_state` /
`torch.set_rng_state` / `torch.cuda.set_rng_state` /
`get_cuda_rng_tracker().set_states` applied with the fields of `rs`. -/
def restoreRng (rs : RngState) : Generators :=
  ⟨rs.random_rng_state, rs.np_rng_state, rs.torch_rng_state,
   rs.cuda_rng_state, rs.rng_tracker_states⟩

/-- One draw from the generators: deterministic in the generator state (any
concrete PRNG step; the sampled value and successor state depend only on the
current state, which is all bit-for-bit reproducibility needs). -/
def nextSample (g : Generators) : Nat × Generators :=
  (g.random_state + 3 * g.np_state + 5 * g.torch_state + 7 * g.cuda_state,
   { g with
      random_state := 6364136223846793005 * g.random_state + 1442695040888963407,
      torch_state := g.torch_state + 1 })

/-- The sequence of the next `n` samples drawn from generator state `g`. -/
def randomSequence : Generators → Nat → List Nat
  | _, 0 => []
  | g, n + 1 =>
      let (v, g2) := nextSample g
      v :: randomSequence g2 n

/-! ## The argument/config object (`get_args()`)

Only the attributes the checkpoint module reads are modelled.  When a record
is saved the whole args object is stored under the `args` key, so the same
structure serves as the `run_config_snapshot` inside checkpoints. -/

structure Args where
  save : List String := []
  load : List String := []
  pretrained_checkpoint : Option (List String) := none
  finetune : Bool := false
  use_dist_ckpt : Bool := false
  dist_ckpt_format : String := "torch_dist"
  auto_detect_ckpt_format : Bool := false
  use_distributed_optimizer : Bool := false
  use_zero2 : Bool := false
  ckpt_fully_parallel_save : Bool := false
  no_save_optim : Bool := false
  no_save_rng : Bool := false
  no_load_optim : Bool := false
  no_load_rng : Bool := false
  exit_on_missing_checkpoint : Bool := false
  data_parallel_random_init : Bool := false
  fp16 : Bool := false
  bf16 : Bool := false
  retro_add_retriever : Bool := false
  lora : Bool := false
  consumed_train_samples : Nat := 0
  consumed_valid_samples : Nat := 0
  tensor_model_parallel_size : Nat := 1
  pipeline_model_parallel_size : Nat := 1
  deriving Repr, DecidableEq

/-! ## Process context (`mpu` and `torch.distributed` queries) -/

structure Ctx where
  distributed_initialized : Bool := true
  global_rank : Nat := 0
  data_parallel_rank : Nat := 0
  data_parallel_world_size : Nat := 1
  context_parallel_rank : Nat := 0
  context_parallel_world_size : Nat := 1
  data_modulo_expert_parallel_rank : Nat := 0
  tensor_model_parallel_world_size : Nat := 1
  pipeline_model_parallel_world_size : Nat := 1
  deriving Repr, DecidableEq

/-! ## The checkpoint record (`state_dict` dictionary)

Each `Option` field records whether the corresponding string key is present in
the Python dict.  `model` holds the single-stage key `model`; `model_per_stage`
holds the multi-stage keys `model0`, `model1`, ... (entry `i` is key
`model<i>`).  The `rng_state` key can be present yet bound to Python `None`
(the mismatch path of `load_checkpoint` passes `rng_state = None` into
`generate_state_dict`), hence the nested `Option`.  The optimizer entry is a
plain state dict on the normal path and a list of per-shard dicts on the Zero2
load path. -/

inductive OptimizerEntry where
  | single (sd : Nat)
  | shardList (sds : List Nat)
  deriving Repr, DecidableEq

structure StateDict where
  args : Option Args := none
  checkpoint_version : Option Nat := none
  iteration : Option Nat := none
  total_iters : Option Nat := none
  model : Option Nat := none
  model_per_stage : List Nat := []
  optimizer : Option OptimizerEntry := none
  opt_param_scheduler : Option Nat := none
  lr_scheduler : Option Nat := none
  rng_state : Option (Option (List RngState)) := none
  num_floating_point_operations_so_far : Option Nat := none
  random_rng_state : Option Nat := none
  np_rng_state : Option Nat := none
  torch_rng_state : Option Nat := none
  cuda_rng_state : Option Nat := none
  rng_tracker_states : Option (List (String × Nat)) := none
  deriving Repr, DecidableEq

/-! ## `generate_state_dict` (checkpoint.py lines 360-398)

The live model is passed as the list of (already unwrapped) stages; each
stage's `state_dict_for_save_checkpoint()` / `sharded_state_dict()` is its
payload (the sharded-descriptor vs. dense distinction is invisible at this
granularity, as is `optimizer.sharded_state_dict` vs. `optimizer.state_dict`,
both being the opaque optimizer payload). -/

def generate_state_dict (args : Args) (model : List Nat)
    (optimizer : Option OptimizerEntry) (opt_param_scheduler : Option Nat)
    (rng_state : Option (List RngState)) (iteration : Option Nat := none) :
    StateDict :=
  let sd0 : StateDict :=
    { args := some args
      checkpoint_version := some 3
      iteration := iteration }
  let sd1 :=
    match model with
    | [m] => { sd0 with model := some m }
    | ms => { sd0 with model_per_stage := ms }
  let sd2 :=
    if !args.no_save_optim then
      let sdOpt :=
        match optimizer with
        | some opt =>
            if !args.use_zero2 then { sd1 with optimizer := some opt } else sd1
        | none => sd1
      match opt_param_scheduler with
      | some sch => { sdOpt with opt_param_scheduler := some sch }
      | none => sdOpt
    else sd1
  if !args.no_save_rng then { sd2 with rng_state := some rng_state } else sd2

/-! ## Paths, tracker and on-disk state

A path is its list of components (`os.path.join` is list append,
`os.path.dirname` is `dropLast`). -/

abbrev Path := List String

/-- Content of the tracker file: an iteration number or the release token
(the spec's Path & Tracker Resolver parses exactly these two forms). -/
inductive TrackerContent where
  | iterNum (n : Nat)
  | releaseTok
  deriving Repr, DecidableEq

/-- Modelled from the spec: `read_metadata` lives in `checkpoint/utils.py`,
which is not under the given sources.  Per the spec's Path & Tracker Resolver,
it parses the tracker into an iteration or the release marker (a release
tracker yields iteration 0 with the release flag set). -/
def read_metadata : TrackerContent → Nat × Bool
  | .iterNum n => (n, false)
  | .releaseTok => (0, true)

/-- Modelled from the spec: `get_checkpoint_tracker_filename` is in the missing
`checkpoint/utils.py`; the spec's on-disk layout names the tracker
`<root>/latest_checkpointed_iteration.txt`. -/
def get_checkpoint_tracker_filename (root : Path) : Path :=
  root ++ ["latest_checkpointed_iteration.txt"]

/-- Modelled from the spec: `get_checkpoint_name` is in the missing
`checkpoint/utils.py`.  Per the spec's on-disk layout the checkpoint lives in
`<root>/iter_<N>/` (or `<root>/release/` for a release checkpoint);
`return_base_dir` selects the directory itself (sharded format) or the
monolithic record file inside it. -/
def get_checkpoint_name (root : Path) (iteration : Nat) (release : Bool := false)
    (return_base_dir : Bool := false) : Path :=
  let dir := root ++ [if release then "release" else "iter_" ++ toString iteration]
  if return_base_dir then dir else dir ++ ["model_optim_rng.pt"]

/-- Modelled from the spec: `get_distributed_optimizer_checkpoint_name` is in
the missing `checkpoint/utils.py`; the spec's on-disk layout places the
distributed-optimizer shard at `<root>/iter_<N>/distrib_optim.pt`, a sibling of
the model record. -/
def get_distributed_optimizer_checkpoint_name (model_checkpoint_name : Path) : Path :=
  model_checkpoint_name.dropLast ++ ["distrib_optim.pt"]

/-- Embedding of `get_zero2_optimizer_checkpoint_name` (checkpoint.py lines 400-402):
`os.path.join(os.path.dirname(model_checkpoint_name),
"zero2_optim_dp<d>_cp<c>.pt")`. -/
def get_zero2_optimizer_checkpoint_name (model_checkpoint_name : Path)
    (dp_rank cp_rank : Nat) : Path :=
  model_checkpoint_name.dropLast ++
    ["zero2_optim_dp" ++ toString dp_rank ++ "_cp" ++ toString cp_rank ++ ".pt"]

/-- Modelled from the spec: the `use_zero2=True` overload of
`get_checkpoint_name` (missing `checkpoint/utils.py`) returns the list of all
per-(data-parallel-rank, context-parallel-rank) Zero2 optimizer shard names.
The spec's Zero2 testable property fixes one shard per (dp, cp) pair in a
deterministic (dp, cp) order; each name is formed exactly as the in-source
`get_zero2_optimizer_checkpoint_name` forms it at save time. -/
def get_zero2_checkpoint_names (root : Path) (iteration : Nat) (release : Bool)
    (dpWorld cpWorld : Nat) : List Path :=
  (List.range dpWorld).flatMap fun d =>
    (List.range cpWorld).map fun c =>
      get_zero2_optimizer_checkpoint_name
        (get_checkpoint_name root iteration release false) d c

/-- A monolithic model-record file as `torch.load` sees it: a current-layout
file, a legacy-layout file that deserializes only once the compatibility
module aliases are installed, or a legacy file that fails to deserialize even
then. -/
inductive ModelFile where
  | modern (sd : StateDict)
  | legacy (sd : StateDict)
  | legacyUnreadable
  deriving Repr, DecidableEq

/-- The file-system and serialization-backend state visible to this module:
tracker files, monolithic record files, optimizer shard files, and the
sharded-format records the distributed-checkpointing backend stores per
checkpoint directory. -/
structure Disk where
  trackers : Path → Option TrackerContent
  files : Path → Option ModelFile
  optimShards : Path → Option Nat
  distRecords : Path → Option StateDict

/-- The check `dist_checkpointing.check_is_distributed_checkpoint`: the directory holds a
sharded-format record. -/
def check_is_distributed_checkpoint (disk : Disk) (dir : Path) : Bool :=
  (disk.distRecords dir).isSome

/-- Modelled from the spec: `checkpoint_exists` is in the missing
`checkpoint/utils.py`; a checkpoint exists in a directory when its tracker
file does (the tracker is written once per successful save and read by every
load). -/
def checkpoint_exists (disk : Disk) (root : Path) : Bool :=
  (disk.trackers (get_checkpoint_tracker_filename root)).isSome

/-! ## The Zero2 load path (checkpoint.py lines 400-477) -/

/-- The three `sys.modules` compatibility aliases installed by the
`except ModuleNotFoundError` handler (lines 462-466). -/
def zero2AliasSet : Finset String :=
  {"fp16.loss_scaler", "megatron.fp16.loss_scaler", "megatron.model"}

/-- Python exceptions distinguished by the handlers in this module. -/
inductive PyExc where
  | moduleNotFoundError
  | otherError
  deriving Repr, DecidableEq

/-- Behaviour of `torch.load` on a monolithic model-record file.  A legacy-layout file
raises `ModuleNotFoundError` unless the compatibility aliases are all present
in the module registry; a missing file raises (caught as `BaseException`). -/
def torch_load (disk : Disk) (p : Path) (registry : Finset String) :
    Except PyExc StateDict :=
  match disk.files p with
  | none => .error .otherError
  | some (.modern sd) => .ok sd
  | some (.legacy sd) =>
      if zero2AliasSet ⊆ registry then .ok sd else .error .moduleNotFoundError
  | some .legacyUnreadable => .error .moduleNotFoundError

/-- Behaviour of `torch.load` on an optimizer shard file (a plain payload; a missing file
raises). -/
def torch_load_shard (disk : Disk) (p : Path) : Except PyExc Nat :=
  match disk.optimShards p with
  | none => .error .otherError
  | some v => .ok v

/-- Embedding of `load_zero2_optimizer` (checkpoint.py lines 408-413): load every shard file
in order, collect the results into a list, and attach it under the record's
`optimizer` key. -/
def load_zero2_optimizer (disk : Disk) (optimizer_state_dict_names : List Path)
    (state_dict : StateDict) : Except PyExc StateDict := do
  let optimizer_state_list ← optimizer_state_dict_names.mapM (torch_load_shard disk)
  return { state_dict with optimizer := some (.shardList optimizer_state_list) }

/-- Fatal outcomes of the load paths: raised exceptions and
`print` + `sys.exit` terminations. -/
inductive LoadError where
  | fileNotFound (msg : String)
  | runtimeError (msg : String)
  | sysExit (msg : String)
  | assertionFailed (msg : String)
  | notImplementedError (msg : String)
  | uncaughtException
  deriving Repr, DecidableEq

/-- Embedding of `_load_zero2_checkpoint` (checkpoint.py lines 415-477).  Returns the
`(state_dict, checkpoint_name, release)` triple (or the fatal outcome) paired
with the module registry as it stands when the function returns or its
exception escapes.  Mirrored control flow: missing tracker returns
`(None, "", False)`; a sharded-format checkpoint fails the assert; the first
`torch.load` + `load_zero2_optimizer` attempt runs under the caller's
registry; on `ModuleNotFoundError` the three aliases are installed, the load
is retried and the aliases are popped afterwards — but an exception raised
inside that handler is not caught by the sibling `except BaseException`
clause, so it propagates with the aliases still installed (the pops on lines
469-471 are unreachable then); any other exception from the first attempt is
reported and the process exits. -/
def _load_zero2_checkpoint (disk : Disk) (ctx : Ctx) (registry : Finset String)
    (load_dir : Path) (checkpoint_step : Option Nat := none) :
    Except LoadError (Option StateDict × Path × Bool) × Finset String :=
  let tracker_filename := get_checkpoint_tracker_filename load_dir
  match disk.trackers tracker_filename with
  | none => (.ok (none, [], false), registry)
  | some tc =>
    let (iteration, release) :=
      match checkpoint_step with
      | some step => (step, false)
      | none => read_metadata tc
    let checkpoint_name := get_checkpoint_name load_dir iteration release true
    let is_dist_ckpt := check_is_distributed_checkpoint disk checkpoint_name
    if is_dist_ckpt then
      (.error (.assertionFailed "Zero2 optimizer not support dist ckpt format!"), registry)
    else
      let model_checkpoint_name := get_checkpoint_name load_dir iteration release false
      let optimizer_state_dict_names :=
        get_zero2_checkpoint_names load_dir iteration release
          ctx.data_parallel_world_size ctx.context_parallel_world_size
      let firstTry : Except PyExc StateDict :=
        match torch_load disk model_checkpoint_name registry with
        | .ok sd => load_zero2_optimizer disk optimizer_state_dict_names sd
        | .error e => .error e
      match firstTry with
      | .ok sd => (.ok (some sd, checkpoint_name, release), registry)
      | .error .moduleNotFoundError =>
          let registry2 := registry ∪ zero2AliasSet
          let retry : Except PyExc StateDict :=
            match torch_load disk model_checkpoint_name registry2 with
            | .ok sd => load_zero2_optimizer disk optimizer_state_dict_names sd
            | .error e => .error e
          match retry with
          | .ok sd => (.ok (some sd, checkpoint_name, release), registry2 \ zero2AliasSet)
          | .error _ => (.error .uncaughtException, registry2)
      | .error .otherError =>
          (.error (.sysExit "could not load the checkpoint"), registry)

/-! ## `save_checkpoint` (checkpoint.py lines 53-129) -/

/-- Functional update of one tracker file. -/
def Disk.writeTracker (d : Disk) (p : Path) (c : TrackerContent) : Disk :=
  { d with trackers := fun q => if q = p then some c else d.trackers q }

/-- Functional update of one monolithic record file (`torch.save`). -/
def Disk.writeFile (d : Disk) (p : Path) (f : ModelFile) : Disk :=
  { d with files := fun q => if q = p then some f else d.files q }

/-- Functional update of one optimizer shard file. -/
def Disk.writeShard (d : Disk) (p : Path) (v : Nat) : Disk :=
  { d with optimShards := fun q => if q = p then some v else d.optimShards q }

/-- Functional update of one sharded-format record (`dist_checkpointing.save`). -/
def Disk.writeDistRecord (d : Disk) (p : Path) (sd : StateDict) : Disk :=
  { d with distRecords := fun q => if q = p then some sd else d.distRecords q }

/-- Modelled from the spec: `get_rng_state` is in the missing
`checkpoint/utils.py`.  Per the spec's RNG State Collector, under the
sharded-format policy it returns a single per-process snapshot, otherwise the
array of snapshots indexed by data-parallel rank (gathered across the
data-parallel group; `allGens r` is the generator state held by data-parallel
rank `r`). -/
def get_rng_state (ctx : Ctx) (allGens : Nat → Generators)
    (use_dist_ckpt : Bool) : List RngState :=
  if use_dist_ckpt then [captureRng (allGens ctx.data_parallel_rank)]
  else (List.range ctx.data_parallel_world_size).map fun r => captureRng (allGens r)

/-- The `optimizer.state_dict()` / `optimizer.save_parameter_state` payload of a
live optimizer whose internal state is `e`: the single state dict itself, or
an opaque encoding when the internal state was populated from a shard list
(the encoding never matters; it only keeps the function total). -/
def OptimizerEntry.statePayload : OptimizerEntry → Nat
  | .single s => s
  | .shardList l => l.foldr (fun a b => Nat.pair a b + 1) 0

/-- One observable step of `save_checkpoint`, tagged with the acting process's
global rank where one process acts alone. -/
inductive Event where
  | writeOptimShard (rank : Nat)
  | writeCheckpoint (rank : Nat)
  | barrier
  | writeTracker (rank : Nat)
  deriving Repr, DecidableEq

structure SaveResult where
  disk : Disk
  events : List Event

/-- Embedding of `save_checkpoint` (checkpoint.py lines 53-129), as executed by the process
described by `ctx`, returning the disk it leaves behind and the trace of its
observable steps in program order.  `zero2_optimizer_save` (lines 404-406) is
inlined as the shard write it performs; `ensure_directory_exists` is a no-op
on this disk model (idempotent directory creation). -/
def save_checkpoint (args : Args) (ctx : Ctx) (allGens : Nat → Generators)
    (iteration : Nat) (modelIn : List Module) (optimizer : Option OptimizerEntry)
    (opt_param_scheduler : Option Nat)
    (num_floating_point_operations_so_far : Nat) (disk : Disk) : SaveResult :=
  let model := modelIn.map unwrapLoop
  let rng_state := get_rng_state ctx allGens args.use_dist_ckpt
  let checkpoint_name :=
    get_checkpoint_name args.save iteration false args.use_dist_ckpt
  -- Save distributed optimizer's custom parameter state (lines 72-76).
  let (disk, events) :=
    match optimizer with
    | some opt =>
        if args.use_distributed_optimizer && !args.no_save_optim && !args.use_dist_ckpt then
          (disk.writeShard (get_distributed_optimizer_checkpoint_name checkpoint_name)
             opt.statePayload,
           [Event.writeOptimShard ctx.global_rank])
        else (disk, [])
    | none => (disk, [])
  -- Save Deepspeed Zero2 shared optimizer's parameter state (lines 79-85).
  let (disk, events) :=
    match optimizer with
    | some opt =>
        if args.use_zero2 && !args.no_save_optim then
          (disk.writeShard
             (get_zero2_optimizer_checkpoint_name checkpoint_name
                ctx.data_parallel_rank ctx.context_parallel_rank) opt.statePayload,
           events ++ [Event.writeOptimShard ctx.global_rank])
        else (disk, events)
    | none => (disk, events)
  -- Collect args, model, RNG and write the record (lines 88-111).
  let (disk, events) :=
    if !ctx.distributed_initialized || ctx.data_modulo_expert_parallel_rank == 0
        || args.use_dist_ckpt then
      let state_dict :=
        generate_state_dict args (model.map Module.payload) optimizer
          opt_param_scheduler (some rng_state) (some iteration)
      let state_dict :=
        { state_dict with
            num_floating_point_operations_so_far :=
              some num_floating_point_operations_so_far }
      if args.use_dist_ckpt then
        (disk.writeDistRecord checkpoint_name state_dict,
         events ++ [Event.writeCheckpoint ctx.global_rank])
      else
        (disk.writeFile checkpoint_name (.modern state_dict),
         events ++ [Event.writeCheckpoint ctx.global_rank])
    else (disk, events)
  -- Wait so everyone is done (necessary) (lines 114-115).
  let events :=
    if ctx.distributed_initialized then events ++ [Event.barrier] else events
  -- And update the latest iteration (lines 121-125).
  let (disk, events) :=
    if !ctx.distributed_initialized || ctx.global_rank == 0 then
      (disk.writeTracker (get_checkpoint_tracker_filename args.save)
         (.iterNum iteration),
       events ++ [Event.writeTracker ctx.global_rank])
    else (disk, events)
  -- Wait so everyone is done (not necessary) (lines 128-129).
  let events :=
    if ctx.distributed_initialized then events ++ [Event.barrier] else events
  ⟨disk, events⟩

/-! ## `load_checkpoint` (checkpoint.py lines 131-358) -/

def pathToString (p : Path) : String := String.intercalate "/" p

/-- The `print_rank_0` guidance emitted before `sys.exit()` when the optimizer
try-block hits a `KeyError` (checkpoint.py lines 301-305). -/
def optimizer_exit_message (checkpoint_name : Path) : String :=
  "Unable to load optimizer from checkpoint " ++ pathToString checkpoint_name ++
    ". Specify --no-load-optim or --finetune to prevent attempting to load the optimizer state, exiting ..."

/-- The `print_rank_0` guidance emitted before `sys.exit()` when the RNG
try-block hits a `KeyError` (checkpoint.py lines 339-343).  It names the
explicit skip flag `--no-load-rng`. -/
def rng_exit_message (checkpoint_name : Path) : String :=
  "Unable to load rng state from checkpoint " ++ pathToString checkpoint_name ++
    ". Specify --no-load-rng or --finetune to prevent attempting to load the rng state, exiting ..."

/-- The message emitted before `sys.exit()` when neither `iteration` nor
`total_iters` is present (checkpoint.py lines 204-206). -/
def iteration_exit_message (checkpoint_name : Path) : String :=
  "A metadata file exists but unable to load iteration from checkpoint " ++
    pathToString checkpoint_name ++ ", exiting"

/-- The `"(TP, PP) mismatch after resume ({} vs {} from checkpoint)"` text
(checkpoint.py line 160). -/
def mismatch_message (ckpt_tp_pp run_tp_pp : Nat × Nat) : String :=
  "(TP, PP) mismatch after resume ((" ++ toString ckpt_tp_pp.1 ++ ", " ++
    toString ckpt_tp_pp.2 ++ ") vs (" ++ toString run_tp_pp.1 ++ ", " ++
    toString run_tp_pp.2 ++ ") from checkpoint)"

/-- Modelled from the spec: `_load_base_checkpoint` is in the missing
`checkpoint/utils.py`.  Per the spec's Load state machine and serialization
interface: read the tracker (absent means no record, or termination when
`exit_on_missing_checkpoint` is set); resolve the checkpoint name from the
tracker; for a sharded-format directory the backend returns the stored record
(the backend is an external collaborator assumed symmetric); for a monolithic
file, deserialize with the legacy module aliasing scoped exception-safely
around the read, so a legacy-layout file loads and an unreadable one
terminates with a message. -/
def _load_base_checkpoint (disk : Disk) (load_dir : Path) (rank0 : Bool)
    (exit_on_missing_checkpoint : Bool := false) :
    Except LoadError (Option StateDict × Path × Bool) :=
  match disk.trackers (get_checkpoint_tracker_filename load_dir) with
  | none =>
      if exit_on_missing_checkpoint then
        .error (.sysExit "No checkpoint found; exiting")
      else .ok (none, [], false)
  | some tc =>
      let (iteration, release) := read_metadata tc
      let base_dir := get_checkpoint_name load_dir iteration release true
      if check_is_distributed_checkpoint disk base_dir then
        .ok (disk.distRecords base_dir, base_dir, release)
      else
        let name := get_checkpoint_name load_dir iteration release false
        match disk.files name with
        | none => .error .uncaughtException
        | some (.modern sd) => .ok (some sd, name, release)
        | some (.legacy sd) => .ok (some sd, name, release)
        | some .legacyUnreadable => .error (.sysExit "could not load the checkpoint")

/-- Output of the format-gate block of `load_checkpoint` (lines 152-179):
whether a sharded checkpoint was detected, the sharded template placed in
`load_kwargs` (with the RNG gating decision folded in), the
`exit_on_missing_checkpoint` entry of `load_kwargs`, and the warnings printed
by the block. -/
structure DistGateResult where
  is_dist_ckpt : Bool := false
  sharded_state_dict : Option StateDict := none
  exit_on_missing_checkpoint : Bool := false
  msgs : List String := []
  deriving Repr, DecidableEq

/-- The format-gate block of `load_checkpoint` (checkpoint.py lines 152-179).
When auto-detection or the distributed format is requested, peek the
checkpoint on rank 0; if it is sharded, compare the recorded
(tensor-parallel, pipeline-parallel) sizes with the live run's: on agreement
(and unless the checkpoint itself was saved with `no_save_rng`) a live RNG
snapshot goes into the template, otherwise the template carries no RNG and
the mismatch warning is printed; then mismatch is fatal exactly when the run
is a non-release, non-finetune, optimizer-loading, distributed-optimizer
run. -/
def load_dist_gate (args : Args) (ctx : Ctx) (disk : Disk)
    (allGens : Nat → Generators) (model : List Nat)
    (optimizer : Option OptimizerEntry)
    (opt_param_scheduler : Option Nat) (load_dir : Path) :
    Except LoadError DistGateResult :=
  if args.auto_detect_ckpt_format || args.use_dist_ckpt then do
    let (state_dict?, checkpoint_name, release) ←
      _load_base_checkpoint disk load_dir true args.exit_on_missing_checkpoint
    let is_dist_ckpt := check_is_distributed_checkpoint disk checkpoint_name
    if is_dist_ckpt then
      match state_dict?.bind StateDict.args with
      | none => .error .uncaughtException
      | some ckpt_args =>
        let ckpt_tp_pp := (ckpt_args.tensor_model_parallel_size,
                           ckpt_args.pipeline_model_parallel_size)
        let run_tp_pp := (ctx.tensor_model_parallel_world_size,
                          ctx.pipeline_model_parallel_world_size)
        let rng_state :=
          if ckpt_tp_pp == run_tp_pp && !ckpt_args.no_save_rng then
            some (get_rng_state ctx allGens true)
          else none
        let msgs :=
          if rng_state.isNone then
            [mismatch_message ckpt_tp_pp run_tp_pp ++ ": RNG state will be ignored"]
          else []
        if ckpt_tp_pp != run_tp_pp && !release && !args.finetune &&
            !args.no_load_optim && args.use_distributed_optimizer then
          .error (.runtimeError
            (mismatch_message ckpt_tp_pp run_tp_pp ++ ": not supported for DistributedOptimizer"))
        else
          .ok { is_dist_ckpt := true
                sharded_state_dict :=
                  some (generate_state_dict args model optimizer
                          opt_param_scheduler rng_state none)
                exit_on_missing_checkpoint := args.exit_on_missing_checkpoint
                msgs := msgs }
    else
      .ok { is_dist_ckpt := false }
  else
    .ok { is_dist_ckpt := false }

/-- The live training objects one process holds across a load. -/
structure Live where
  model : List Module
  optimizer : Option OptimizerEntry
  scheduler : Option Nat
  gens : Generators
  deriving Repr, DecidableEq

structure LoadResult where
  iteration : Nat
  num_floating_point_operations_so_far : Nat
  live : Live
  args : Args
  deriving Repr, DecidableEq

/-- The model-restoration block (checkpoint.py lines 260-265): a single stage
loads from the `model` key, several stages load from `model<i>` in stage
order; an absent key is an uncaught `KeyError`.  The in-place
`load_state_dict` on the unwrapped stage replaces the payload underneath the
wrappers. -/
def load_model_stages (modelIn : List Module) (sd : StateDict) :
    Except LoadError (List Module) :=
  if modelIn.length == 1 then
    match sd.model, modelIn with
    | some entry, [m] => .ok [m.setPayload entry]
    | _, _ => .error .uncaughtException
  else
    if modelIn.length ≤ sd.model_per_stage.length then
      .ok (List.zipWith Module.setPayload modelIn sd.model_per_stage)
    else .error .uncaughtException

/-- The iteration-selection block (checkpoint.py lines 194-207): a finetune or
release load forces iteration 0; otherwise the record's `iteration` field is
used, falling back to the older `total_iters` field name, and the absence of
both is `print` + `sys.exit`. -/
def set_iteration_block (args : Args) (release : Bool) (sd : StateDict)
    (checkpoint_name : Path) : Except LoadError Nat :=
  if args.finetune || release then .ok 0
  else
    match sd.iteration with
    | some it => .ok it
    | none =>
        match sd.total_iters with
        | some it => .ok it
        | none => .error (.sysExit (iteration_exit_message checkpoint_name))

/-- Result of the optimizer/scheduler restoration block; the block can rebind
`iteration` and `release` (checkpoint.py line 286 re-reads the tracker when
the distributed optimizer loads its parameter state from a non-sharded
checkpoint). -/
structure OptimBlockResult where
  optimizer : Option OptimizerEntry
  scheduler : Option Nat
  iteration : Nat
  release : Bool
  deriving Repr, DecidableEq

/-- The optimizer/scheduler restoration block (checkpoint.py lines 272-308).
Skipped wholesale on a release, finetune or `no_load_optim` load (then
`reload_model_params` runs under fp16/bf16, touching no modelled state).
Inside the block every `KeyError` is caught and turned into
`print` + `sys.exit` with the `--no-load-optim` guidance; other exceptions
(missing tracker or shard file, optimizer absent in the
distributed-optimizer sub-branch) propagate uncaught. -/
def load_optimizer_block (args : Args) (disk : Disk) (load_dir : Path)
    (checkpoint_name : Path) (sd : StateDict) (is_dist_ckpt : Bool)
    (optimizer : Option OptimizerEntry) (scheduler : Option Nat)
    (iteration : Nat) (release : Bool) : Except LoadError OptimBlockResult :=
  if !release && !args.finetune && !args.no_load_optim then do
    -- Load state dict (lines 276-280): zero2 passes load_from_fp32_weights,
    -- which does not change what state is consumed from the record.
    let optimizer ←
      match optimizer with
      | some _ =>
          match sd.optimizer with
          | some e => Except.ok (some e)
          | none => Except.error (.sysExit (optimizer_exit_message checkpoint_name))
      | none => Except.ok none
    -- Load distributed optimizer's custom parameter state (lines 284-292).
    let (iteration, release, optimizer) ←
      if args.use_distributed_optimizer && !is_dist_ckpt then
        match disk.trackers (get_checkpoint_tracker_filename load_dir) with
        | none => Except.error .uncaughtException
        | some tc =>
          let (it2, rel2) := read_metadata tc
          let model_checkpoint_name := get_checkpoint_name load_dir it2 rel2
          let optim_checkpoint_name :=
            get_distributed_optimizer_checkpoint_name model_checkpoint_name
          match optimizer with
          | none => Except.error .uncaughtException
          | some _ =>
            match disk.optimShards optim_checkpoint_name with
            | none => Except.error .uncaughtException
            | some v =>
                -- load_parameter_state: the external optimizer overwrites its
                -- per-rank parameter state from the shard file
                Except.ok (it2, rel2, some (OptimizerEntry.single v))
      else Except.ok (iteration, release, optimizer)
    -- Load scheduler (lines 295-299), tolerating the older field name.
    let scheduler ←
      match scheduler with
      | some _ =>
          match sd.lr_scheduler with
          | some v => Except.ok (some v)
          | none =>
            match sd.opt_param_scheduler with
            | some v => Except.ok (some v)
            | none => Except.error (.sysExit (optimizer_exit_message checkpoint_name))
      | none => Except.ok none
    return ⟨optimizer, scheduler, iteration, release⟩
  else
    .ok ⟨optimizer, scheduler, iteration, release⟩

/-- The RNG restoration block (checkpoint.py lines 310-343).  Skipped
wholesale on a release, finetune or `no_load_rng` load.  Otherwise: a present
`rng_state` key selects the element at the data-parallel rank (index 0 unless
`data_parallel_random_init`) — subscripting `None` or an out-of-range index
is an uncaught crash, not a `KeyError` — restores the four generators, and
raises `KeyError` on an empty `rng_tracker_states` list; an absent `rng_state`
key falls back to the legacy top-level keys with the same empty-tracker
check; every `KeyError` becomes `print` + `sys.exit` with the
`--no-load-rng` guidance. -/
def load_rng_block (args : Args) (ctx : Ctx) (checkpoint_name : Path)
    (sd : StateDict) (release : Bool) (gens : Generators) :
    Except LoadError Generators :=
  if !release && !args.finetune && !args.no_load_rng then
    match sd.rng_state with
    | some v =>
        match v with
        | none => .error .uncaughtException
        | some lst =>
          let idx := if args.data_parallel_random_init then ctx.data_parallel_rank else 0
          match lst.get? idx with
          | none => .error .uncaughtException
          | some rs =>
            if rs.rng_tracker_states.isEmpty then
              .error (.sysExit (rng_exit_message checkpoint_name))
            else .ok (restoreRng rs)
    | none =>
        match sd.random_rng_state, sd.np_rng_state, sd.torch_rng_state,
              sd.cuda_rng_state, sd.rng_tracker_states with
        | some r, some n, some t, some c, some ts =>
            if ts.isEmpty then .error (.sysExit (rng_exit_message checkpoint_name))
            else .ok ⟨r, n, t, c, ts⟩
        | _, _, _, _, _ => .error (.sysExit (rng_exit_message checkpoint_name))
  else .ok gens

/-- Embedding of `load_checkpoint` (checkpoint.py lines 131-358), for the process described
by `ctx` whose generator state is `allGens ctx.data_parallel_rank`.  Control
flow mirrored block by block: finetune-directory fallback, model unwrap,
format gate, Zero2 vs. base record read (a nonempty `load_kwargs` passed to
`_load_zero2_checkpoint` is a `TypeError` crash, since that function accepts
no such keywords), early `(0, 0)` return when no record was read, iteration
resolution with the `total_iters` fallback, the consumed-samples assertions
and counter adoption, lora guard, per-stage model restoration, and the
optimizer and RNG blocks.  Returns the restored live objects together with
the `(iteration, num_floating_point_operations_so_far)` pair. -/
def load_checkpoint (args0 : Args) (ctx : Ctx) (disk : Disk)
    (registry : Finset String) (allGens : Nat → Generators)
    (modelIn : List Module) (optimizer : Option OptimizerEntry)
    (opt_param_scheduler : Option Nat) (strict : Bool := true) :
    Except LoadError LoadResult := do
  let load_dir := args0.load
  -- Finetuning directories (lines 140-147): on fallback the pretrained
  -- directory is probed before args.finetune is set; a missing pretrained
  -- checkpoint raises FileNotFoundError.
  let (load_dir, args) ←
    match args0.pretrained_checkpoint with
    | some pretrained_dir =>
        if !checkpoint_exists disk load_dir then
          if !checkpoint_exists disk pretrained_dir then
            Except.error (.fileNotFound
              "No checkpoint found in load directory or pretrained directory")
          else Except.ok (pretrained_dir, { args0 with finetune := true })
        else Except.ok (load_dir, args0)
    | none => Except.ok (load_dir, args0)
  -- line 150
  let model := modelIn.map unwrapLoop
  -- Format gate (lines 152-179).
  let gate ← load_dist_gate args ctx disk allGens (model.map Module.payload)
      optimizer opt_param_scheduler load_dir
  -- Read the record (lines 181-184).
  let (state_dict?, checkpoint_name, release) ←
    if args.use_zero2 then
      if gate.sharded_state_dict.isSome then
        -- `self._load_zero2_checkpoint(load_dir, **load_kwargs)` with the
        -- sharded template in load_kwargs: unexpected keyword, TypeError
        Except.error .uncaughtException
      else (_load_zero2_checkpoint disk ctx registry load_dir).1
    else
      _load_base_checkpoint disk load_dir false gate.exit_on_missing_checkpoint
  -- Checkpoint not loaded (lines 186-189).
  match state_dict? with
  | none =>
      return { iteration := 0
               num_floating_point_operations_so_far := 0
               live := { model := modelIn, optimizer := optimizer,
                         scheduler := opt_param_scheduler,
                         gens := allGens ctx.data_parallel_rank }
               args := args }
  | some sd =>
    -- Set iteration (lines 194-207).
    let iteration ← set_iteration_block args release sd checkpoint_name
    let num_floating_point_operations_so_far :=
      sd.num_floating_point_operations_so_far.getD 0
    -- Check arguments (lines 210-221).
    if args.consumed_train_samples ≠ 0 then
      Except.error (.assertionFailed "args.consumed_train_samples == 0")
    else if args.consumed_valid_samples ≠ 0 then
      Except.error (.assertionFailed "args.consumed_valid_samples == 0")
    else do
    let args :=
      match sd.args with
      | some checkpoint_args =>
          if !args.finetune then
            { args with
                consumed_train_samples := checkpoint_args.consumed_train_samples
                consumed_valid_samples := checkpoint_args.consumed_valid_samples }
          else args
      | none => args
    -- Model (lines 223-265); strict is weakened by retro_add_retriever but
    -- does not change which payload is consumed.
    let _strict := if args.retro_add_retriever then false else strict
    if args.lora then
      Except.error (.notImplementedError "Lora not implement yet")
    else do
    let newModel ← load_model_stages modelIn sd
    -- Optimizer (lines 272-308).
    let ob ← load_optimizer_block args disk load_dir checkpoint_name sd
        gate.is_dist_ckpt optimizer opt_param_scheduler iteration release
    -- rng states (lines 310-343).
    let gens ← load_rng_block args ctx checkpoint_name sd ob.release
        (allGens ctx.data_parallel_rank)
    -- Trailing barrier and return (lines 350-358).
    return { iteration := ob.iteration
             num_floating_point_operations_so_far := num_floating_point_operations_so_far
             live := { model := newModel, optimizer := ob.optimizer,
                       scheduler := ob.scheduler, gens := gens }
             args := args }

/-! ## Theorems -/

/-- C10: `unwrap_model` preserves the shape of its input — a list yields a
list of the same length with the elements unwrapped in order, and a non-list
input yields a single module; every returned element is the result of
repeatedly replacing a wrapper instance by its inner module, no returned
element is a wrapper instance, and an element that is not wrapped is returned
unchanged. -/
theorem unwrap_model_shape_and_fixpoint :
    (∀ ms : List Module,
        unwrap_model (.list ms) = .list (ms.map unwrapLoop) ∧
          (ms.map unwrapLoop).length = ms.length) ∧
    (∀ m : Module, unwrap_model (.single m) = .single (unwrapLoop m)) ∧
    (∀ m : Module, (unwrapLoop m).isWrapperInstance = false) ∧
    (∀ m : Module, m.isWrapperInstance = false → unwrapLoop m = m) := by
  refine ⟨fun ms => ⟨rfl, by simp⟩, fun m => rfl, fun m => ?_, fun m h => ?_⟩
  · induction m with
    | base p => rfl
    | ddp m ih => simpa [unwrapLoop] using ih
    | float16 m ih => simpa [unwrapLoop] using ih
  · cases m with
    | base p => rfl
    | ddp m => simp [Module.isWrapperInstance] at h
    | float16 m => simp [Module.isWrapperInstance] at h

/-- Witness for `unwrap_model_shape_and_fixpoint` at a concrete module. -/
theorem unwrap_model_shape_and_fixpoint_witness :
    (Module.base 5).isWrapperInstance = false ∧ unwrapLoop (Module.base 5) = Module.base 5 :=
  ⟨rfl, unwrap_model_shape_and_fixpoint.2.2.2 (Module.base 5) rfl⟩

/-- C8 counterexample: with only the optimizer-suppression flag set
(`no_save_optim = true`, `no_save_rng = false`, Zero2 off) and a scheduler
supplied, `generate_state_dict` omits the scheduler entry as well (the
scheduler entry sits inside the `if not args.no_save_optim` branch, lines
386-394), so suppressing optimizer state does not omit only the optimizer
entry: it also removes the scheduler entry while the RNG entry stays. -/
theorem generate_state_dict_independence_counterexample :
    (generate_state_dict { no_save_optim := true } [7] (some (.single 3)) (some 4)
        (some [⟨1, 2, 3, 4, [("t", 5)]⟩]) (some 10)).opt_param_scheduler = none ∧
    (generate_state_dict { no_save_optim := true } [7] (some (.single 3)) (some 4)
        (some [⟨1, 2, 3, 4, [("t", 5)]⟩]) (some 10)).rng_state.isSome = true := by
  decide

/-- C8 amended: with Zero2 disabled, the two suppression flags that exist act
independently of each other, but scheduler suppression is not separate:
`no_save_optim` omits both the optimizer entry and the scheduler entry,
`no_save_rng` omits only the RNG entry, and neither flag affects the entry
governed by the other. -/
theorem generate_state_dict_suppression_amended (args : Args) (model : List Nat)
    (opt : OptimizerEntry) (sch : Nat) (rng : Option (List RngState))
    (it : Option Nat) (hz : args.use_zero2 = false) :
    ((generate_state_dict args model (some opt) (some sch) rng it).optimizer =
        if args.no_save_optim then none else some opt) ∧
    ((generate_state_dict args model (some opt) (some sch) rng it).opt_param_scheduler =
        if args.no_save_optim then none else some sch) ∧
    ((generate_state_dict args model (some opt) (some sch) rng it).rng_state =
        if args.no_save_rng then none else some rng) := by
  rcases model with - | ⟨m, - | ⟨m2, ms⟩⟩ <;>
    cases hso : args.no_save_optim <;> cases hsr : args.no_save_rng <;>
      simp [generate_state_dict, hz, hso, hsr]

/-- Witness for `generate_state_dict_suppression_amended` at concrete
arguments (RNG suppressed, optimizer kept). -/
theorem generate_state_dict_suppression_amended_witness :
    ((generate_state_dict { no_save_rng := true } [1, 2] (some (.single 9)) (some 4)
        none none).optimizer =
      if ({ no_save_rng := true } : Args).no_save_optim then none
      else some (.single 9)) ∧
    ((generate_state_dict { no_save_rng := true } [1, 2] (some (.single 9)) (some 4)
        none none).opt_param_scheduler =
      if ({ no_save_rng := true } : Args).no_save_optim then none else some 4) ∧
    ((generate_state_dict { no_save_rng := true } [1, 2] (some (.single 9)) (some 4)
        none none).rng_state =
      if ({ no_save_rng := true } : Args).no_save_rng then none else some none) :=
  generate_state_dict_suppression_amended { no_save_rng := true } [1, 2]
    (.single 9) 4 none none rfl

/-- A disk whose tracker names iteration 3 and whose monolithic record file is
a legacy file that fails to deserialize even under the compatibility
aliases. -/
def aliasLeakDisk : Disk where
  trackers := fun p =>
    if p = ["ckpt", "latest_checkpointed_iteration.txt"] then some (.iterNum 3) else none
  files := fun p =>
    if p = ["ckpt", "iter_3", "model_optim_rng.pt"] then some .legacyUnreadable else none
  optimShards := fun _ => none
  distRecords := fun _ => none

/-- C6 counterexample: starting from an empty module registry, loading
`aliasLeakDisk` enters the `except ModuleNotFoundError` handler, installs the
three compatibility aliases, and the retried `torch.load` raises again — the
exception escapes `_load_zero2_checkpoint` with all three aliases still in
the registry, so the aliases are not removed in every case. -/
theorem zero2_alias_removal_counterexample :
    (_load_zero2_checkpoint aliasLeakDisk {} ∅ ["ckpt"]).1 =
        Except.error .uncaughtException ∧
      "megatron.model" ∈ (_load_zero2_checkpoint aliasLeakDisk {} ∅ ["ckpt"]).2 ∧
      "fp16.loss_scaler" ∈ (_load_zero2_checkpoint aliasLeakDisk {} ∅ ["ckpt"]).2 := by
  decide

/-- Case analysis of `_load_zero2_checkpoint`'s effect on the module
registry: either the registry is returned untouched (and no exception escaped
the `except ModuleNotFoundError` handler), or the retry succeeded and the
aliases were installed and popped again, or the retry raised and the aliases
stayed installed. -/
lemma zero2_registry_spec (disk : Disk) (ctx : Ctx) (registry : Finset String)
    (load_dir : Path) (checkpoint_step : Option Nat) :
    ((_load_zero2_checkpoint disk ctx registry load_dir checkpoint_step).2 = registry ∧
      (_load_zero2_checkpoint disk ctx registry load_dir checkpoint_step).1 ≠
        Except.error LoadError.uncaughtException) ∨
    ((_load_zero2_checkpoint disk ctx registry load_dir checkpoint_step).2 =
        (registry ∪ zero2AliasSet) \ zero2AliasSet ∧
      ∃ v, (_load_zero2_checkpoint disk ctx registry load_dir checkpoint_step).1 =
        Except.ok v) ∨
    ((_load_zero2_checkpoint disk ctx registry load_dir checkpoint_step).2 =
        registry ∪ zero2AliasSet ∧
      (_load_zero2_checkpoint disk ctx registry load_dir checkpoint_step).1 =
        Except.error LoadError.uncaughtException) := by
  simp only [_load_zero2_checkpoint]
  repeat' split
  all_goals first
    | exact Or.inl ⟨by trivial, by simp⟩
    | exact Or.inr (Or.inl ⟨by trivial, _, rfl⟩)
    | exact Or.inr (Or.inr ⟨by trivial, by trivial⟩)

/-- C6 amended: when `_load_zero2_checkpoint` returns successfully the module
registry holds none of the three compatibility aliases (they are either never
installed, or installed and popped after the successful retry), and likewise
when the first attempt terminates the run; but when the retried
deserialization inside the `except ModuleNotFoundError` handler itself
raises, the exception propagates with all three aliases still installed. -/
theorem zero2_alias_scoping_amended (disk : Disk) (ctx : Ctx)
    (registry : Finset String) (load_dir : Path) (checkpoint_step : Option Nat)
    (hdisj : ∀ a ∈ zero2AliasSet, a ∉ registry) :
    ((∃ v, (_load_zero2_checkpoint disk ctx registry load_dir checkpoint_step).1 =
        Except.ok v) →
      ∀ a ∈ zero2AliasSet,
        a ∉ (_load_zero2_checkpoint disk ctx registry load_dir checkpoint_step).2) ∧
    ((_load_zero2_checkpoint disk ctx registry load_dir checkpoint_step).1 =
        Except.error .uncaughtException →
      ∀ a ∈ zero2AliasSet,
        a ∈ (_load_zero2_checkpoint disk ctx registry load_dir checkpoint_step).2) := by
  rcases zero2_registry_spec disk ctx registry load_dir checkpoint_step with
    ⟨h2, h1⟩ | ⟨h2, h1⟩ | ⟨h2, h1⟩
  · refine ⟨fun _ a ha => ?_, fun hc => absurd hc h1⟩
    rw [h2]
    exact hdisj a ha
  · rcases h1 with ⟨v, hv⟩
    refine ⟨fun _ a ha => ?_, fun hc => ?_⟩
    · rw [h2]
      simp [Finset.mem_sdiff, ha]
    · rw [hc] at hv
      exact absurd hv (by simp)
  · refine ⟨fun hok => ?_, fun _ a ha => ?_⟩
    · rcases hok with ⟨v, hv⟩
      rw [h1] at hv
      exact absurd hv (by simp)
    · rw [h2]
      exact Finset.mem_union_right registry ha

/-- A disk whose record file is a readable legacy-layout file, exercising the
install-retry-pop path of `_load_zero2_checkpoint`. -/
def aliasLegacyDisk : Disk where
  trackers := fun p =>
    if p = ["ckpt", "latest_checkpointed_iteration.txt"] then some (.iterNum 3) else none
  files := fun p =>
    if p = ["ckpt", "iter_3", "model_optim_rng.pt"] then some (.legacy {}) else none
  optimShards := fun p =>
    if p = ["ckpt", "iter_3", "zero2_optim_dp0_cp0.pt"] then some 11 else none
  distRecords := fun _ => none

/-- Witness for `zero2_alias_scoping_amended`: on `aliasLegacyDisk` the retry
succeeds and the aliases are gone from the registry afterwards. -/
theorem zero2_alias_scoping_amended_witness :
    ((∃ v, (_load_zero2_checkpoint aliasLegacyDisk {} ∅ ["ckpt"] none).1 =
        Except.ok v) →
      ∀ a ∈ zero2AliasSet,
        a ∉ (_load_zero2_checkpoint aliasLegacyDisk {} ∅ ["ckpt"] none).2) ∧
    ((_load_zero2_checkpoint aliasLegacyDisk {} ∅ ["ckpt"] none).1 =
        Except.error .uncaughtException →
      ∀ a ∈ zero2AliasSet,
        a ∈ (_load_zero2_checkpoint aliasLegacyDisk {} ∅ ["ckpt"] none).2) :=
  zero2_alias_scoping_amended aliasLegacyDisk {} ∅ ["ckpt"] none
    (by decide)

/-- When every shard file exists, loading them in order yields exactly the
list of their contents. -/
lemma mapM_torch_load_shard (disk : Disk) (names : List Path)
    (h : ∀ p ∈ names, (disk.optimShards p).isSome) :
    names.mapM (torch_load_shard disk) =
      Except.ok (names.map fun p => (disk.optimShards p).getD 0) := by
  induction names with
  | nil => rfl
  | cons p ps ih =>
      have hp : (disk.optimShards p).isSome := h p (by simp)
      rcases hv : disk.optimShards p with - | v
      · rw [hv] at hp
        simp at hp
      · rw [List.mapM_cons, ih (fun q hq => h q (by simp [hq]))]
        simp [torch_load_shard, hv]
        rfl

/-- Running `load_zero2_optimizer` with every shard file present: the record gains an
`optimizer` entry holding one loaded element per shard name, in order. -/
lemma load_zero2_optimizer_ok (disk : Disk) (names : List Path) (sd : StateDict)
    (h : ∀ p ∈ names, (disk.optimShards p).isSome) :
    load_zero2_optimizer disk names sd =
      Except.ok { sd with
        optimizer := some
          (.shardList (names.map fun p => (disk.optimShards p).getD 0)) } := by
  unfold load_zero2_optimizer
  rw [mapM_torch_load_shard disk names h]
  rfl

/-- The Zero2 shard-name list enumerates one name per
(data-parallel rank, context-parallel rank) pair. -/
lemma get_zero2_checkpoint_names_length (root : Path) (it : Nat) (rel : Bool)
    (dp cp : Nat) :
    (get_zero2_checkpoint_names root it rel dp cp).length = dp * cp := by
  unfold get_zero2_checkpoint_names
  induction dp with
  | zero => simp
  | succ n ih => simp [List.range_succ, ih, Nat.succ_mul]

/-- C5: with a tracker present, `_load_zero2_checkpoint` fails fatally when
the resolved checkpoint directory is in distributed/sharded format; otherwise
it reads the single shared model file and attaches under the record's
`optimizer` entry one loaded element per per-(dp, cp) optimizer shard file,
in the deterministic (dp, cp) order of the shard-name list, of length
`dp_world_size * cp_world_size`. -/
theorem zero2_load_path_spec (disk : Disk) (ctx : Ctx) (registry : Finset String)
    (load_dir : Path) (tc : TrackerContent)
    (ht : disk.trackers (get_checkpoint_tracker_filename load_dir) = some tc) :
    (check_is_distributed_checkpoint disk
        (get_checkpoint_name load_dir (read_metadata tc).1 (read_metadata tc).2 true) =
          true →
      (_load_zero2_checkpoint disk ctx registry load_dir).1 =
        Except.error (.assertionFailed "Zero2 optimizer not support dist ckpt format!")) ∧
    (∀ sd0,
      check_is_distributed_checkpoint disk
          (get_checkpoint_name load_dir (read_metadata tc).1 (read_metadata tc).2 true) =
            false →
      disk.files
          (get_checkpoint_name load_dir (read_metadata tc).1 (read_metadata tc).2 false) =
        some (.modern sd0) →
      (∀ p ∈ get_zero2_checkpoint_names load_dir (read_metadata tc).1 (read_metadata tc).2
          ctx.data_parallel_world_size ctx.context_parallel_world_size,
        (disk.optimShards p).isSome) →
      (_load_zero2_checkpoint disk ctx registry load_dir).1 =
          Except.ok
            (some { sd0 with optimizer := some (.shardList
                ((get_zero2_checkpoint_names load_dir (read_metadata tc).1
                    (read_metadata tc).2 ctx.data_parallel_world_size
                    ctx.context_parallel_world_size).map
                  fun p => (disk.optimShards p).getD 0)) },
              get_checkpoint_name load_dir (read_metadata tc).1 (read_metadata tc).2 true,
              (read_metadata tc).2) ∧
        ((get_zero2_checkpoint_names load_dir (read_metadata tc).1 (read_metadata tc).2
            ctx.data_parallel_world_size ctx.context_parallel_world_size).map
          fun p => (disk.optimShards p).getD 0).length =
          ctx.data_parallel_world_size * ctx.context_parallel_world_size) := by
  constructor
  · intro hd
    simp only [_load_zero2_checkpoint, ht, hd, if_true]
  · intro sd0 hd hf hsh
    have h1 : torch_load disk
        (get_checkpoint_name load_dir (read_metadata tc).1 (read_metadata tc).2 false)
        registry = Except.ok sd0 := by
      simp [torch_load, hf]
    have h2 := load_zero2_optimizer_ok disk
      (get_zero2_checkpoint_names load_dir (read_metadata tc).1 (read_metadata tc).2
        ctx.data_parallel_world_size ctx.context_parallel_world_size) sd0 hsh
    refine ⟨?_, by simp [get_zero2_checkpoint_names_length]⟩
    simp only [_load_zero2_checkpoint, ht, hd, Bool.false_eq_true, if_false, h1, h2]

/-- Concrete Zero2 checkpoint layout with 4 data-parallel and 2
context-parallel ranks: a tracker at iteration 5, a single shared model file
and 8 optimizer shard files. -/
def zero2DemoDisk : Disk where
  trackers := fun p =>
    if p = ["ckpt", "latest_checkpointed_iteration.txt"] then some (.iterNum 5) else none
  files := fun p =>
    if p = ["ckpt", "iter_5", "model_optim_rng.pt"] then some (.modern {}) else none
  optimShards := fun p =>
    if p ∈ get_zero2_checkpoint_names ["ckpt"] 5 false 4 2 then some 7 else none
  distRecords := fun _ => none

def zero2DemoCtx : Ctx :=
  { data_parallel_world_size := 4, context_parallel_world_size := 2 }

/-- Witness for `zero2_load_path_spec`: on the concrete 4x2 layout the load
succeeds and attaches a list of 8 shard loads. -/
theorem zero2_load_path_spec_witness :
    (_load_zero2_checkpoint zero2DemoDisk zero2DemoCtx ∅ ["ckpt"]).1 =
        Except.ok
          (some { ({} : StateDict) with optimizer := some (.shardList
              ((get_zero2_checkpoint_names ["ckpt"] (read_metadata (.iterNum 5)).1
                  (read_metadata (.iterNum 5)).2 4 2).map
                fun p => (zero2DemoDisk.optimShards p).getD 0)) },
            get_checkpoint_name ["ckpt"] (read_metadata (.iterNum 5)).1
              (read_metadata (.iterNum 5)).2 true,
            (read_metadata (.iterNum 5)).2) ∧
      ((get_zero2_checkpoint_names ["ckpt"] (read_metadata (.iterNum 5)).1
          (read_metadata (.iterNum 5)).2 4 2).map
        fun p => (zero2DemoDisk.optimShards p).getD 0).length = 4 * 2 :=
  (zero2_load_path_spec zero2DemoDisk zero2DemoCtx ∅ ["ckpt"] (.iterNum 5)
      (by decide)).2 {} (by decide) (by decide) (by decide)

/-- Config snapshot recorded in a sharded checkpoint saved under
(tp = 2, pp = 2). -/
def mismatchCkptArgs : Args :=
  { tensor_model_parallel_size := 2, pipeline_model_parallel_size := 2 }

/-- A sharded checkpoint at iteration 4 recording `mismatchCkptArgs`. -/
def mismatchDisk : Disk where
  trackers := fun p =>
    if p = ["ckpt", "latest_checkpointed_iteration.txt"] then some (.iterNum 4) else none
  files := fun _ => none
  optimShards := fun _ => none
  distRecords := fun p =>
    if p = ["ckpt", "iter_4"] then some { args := some mismatchCkptArgs } else none

/-- A live run configured (tp = 4, pp = 1). -/
def mismatchLiveCtx : Ctx :=
  { tensor_model_parallel_world_size := 4, pipeline_model_parallel_world_size := 1 }

/-- C2 counterexample: a (tp=2,pp=2) sharded checkpoint loaded into a
(tp=4,pp=1) run with the distributed optimizer in use, neither release nor
finetune — but with optimizer loading suppressed (`no_load_optim = true`):
the format gate does not fail; it proceeds (with the sharded template built
without RNG and the mismatch warning emitted), because the fatality check in
the source also requires `not args.no_load_optim` (checkpoint.py line 169),
a condition the claim omits. -/
theorem dist_gate_mismatch_counterexample :
    (match load_dist_gate
        { load := ["ckpt"], use_dist_ckpt := true,
          use_distributed_optimizer := true, no_load_optim := true }
        mismatchLiveCtx mismatchDisk (fun _ => ⟨0, 0, 0, 0, []⟩) [] none none
        ["ckpt"] with
      | .ok g => g.is_dist_ckpt && g.msgs.length == 1
      | .error _ => false) = true := by
  decide

/-- C2 amended: for a sharded checkpoint whose recorded (tp, pp) differs from
the live run's, the load fails fatally exactly when the distributed optimizer
is in use, the load is neither a release nor a finetune load, *and optimizer
loading is not suppressed* (`no_load_optim` unset); in every other mismatch
case the gate proceeds, skipping RNG restoration (no RNG snapshot in the
sharded template) and emitting the mismatch warning. -/
theorem dist_gate_mismatch_amended (args : Args) (ctx : Ctx) (disk : Disk)
    (allGens : Nat → Generators) (model : List Nat)
    (optimizer : Option OptimizerEntry) (sch : Option Nat) (load_dir : Path)
    (tc : TrackerContent) (sdr : StateDict) (ckargs : Args)
    (hreq : args.auto_detect_ckpt_format = true ∨ args.use_dist_ckpt = true)
    (ht : disk.trackers (get_checkpoint_tracker_filename load_dir) = some tc)
    (hdr : disk.distRecords
        (get_checkpoint_name load_dir (read_metadata tc).1 (read_metadata tc).2 true) =
      some sdr)
    (hargs : sdr.args = some ckargs)
    (hmm : (ckargs.tensor_model_parallel_size, ckargs.pipeline_model_parallel_size) ≠
      (ctx.tensor_model_parallel_world_size, ctx.pipeline_model_parallel_world_size)) :
    (args.use_distributed_optimizer = true → (read_metadata tc).2 = false →
        args.finetune = false → args.no_load_optim = false →
      load_dist_gate args ctx disk allGens model optimizer sch load_dir =
        Except.error (.runtimeError
          (mismatch_message
              (ckargs.tensor_model_parallel_size, ckargs.pipeline_model_parallel_size)
              (ctx.tensor_model_parallel_world_size,
                ctx.pipeline_model_parallel_world_size) ++
            ": not supported for DistributedOptimizer"))) ∧
    (args.use_distributed_optimizer = false ∨ (read_metadata tc).2 = true ∨
        args.finetune = true ∨ args.no_load_optim = true →
      load_dist_gate args ctx disk allGens model optimizer sch load_dir =
        Except.ok
          { is_dist_ckpt := true
            sharded_state_dict :=
              some (generate_state_dict args model optimizer sch none none)
            exit_on_missing_checkpoint := args.exit_on_missing_checkpoint
            msgs := [mismatch_message
                (ckargs.tensor_model_parallel_size, ckargs.pipeline_model_parallel_size)
                (ctx.tensor_model_parallel_world_size,
                  ctx.pipeline_model_parallel_world_size) ++
              ": RNG state will be ignored"] }) := by
  have hg : (args.auto_detect_ckpt_format || args.use_dist_ckpt) = true := by
    rcases hreq with h | h <;> simp [h]
  have hbeq : ((ckargs.tensor_model_parallel_size, ckargs.pipeline_model_parallel_size) ==
      (ctx.tensor_model_parallel_world_size, ctx.pipeline_model_parallel_world_size)) =
        false := by
    simpa using hmm
  have hmm2 : ckargs.tensor_model_parallel_size = ctx.tensor_model_parallel_world_size →
      ¬ckargs.pipeline_model_parallel_size = ctx.pipeline_model_parallel_world_size := by
    intro h1 h2
    exact hmm (by rw [h1, h2])
  have hmm3 : ¬(ckargs.tensor_model_parallel_size = ctx.tensor_model_parallel_world_size ∧
      ckargs.pipeline_model_parallel_size = ctx.pipeline_model_parallel_world_size) := by
    rintro ⟨h1, h2⟩
    exact hmm (by rw [h1, h2])
  have hmm4 : ckargs.tensor_model_parallel_size = ctx.tensor_model_parallel_world_size →
      ckargs.pipeline_model_parallel_size = ctx.pipeline_model_parallel_world_size →
      ckargs.no_save_rng = true :=
    fun h1 h2 => (hmm (by rw [h1, h2])).elim
  rcases hrm : read_metadata tc with ⟨it, rel⟩
  simp only [hrm] at hdr ⊢
  have hcida : check_is_distributed_checkpoint disk
      (get_checkpoint_name load_dir it rel true) = true := by
    simp [check_is_distributed_checkpoint, hdr]
  constructor
  · intro hdo hrel hft hnlo
    subst hrel
    simp only [load_dist_gate, hg, if_true, _load_base_checkpoint, ht, hrm, hcida,
      Except.bind, bind, hdr, hargs, Option.bind_some]
    simp [bne, hbeq, hargs, hmm2, hmm3, hmm4, hdo, hft, hnlo, mismatch_message]
  · intro hother
    simp only [load_dist_gate, hg, if_true, _load_base_checkpoint, ht, hrm, hcida,
      Except.bind, bind, hdr, hargs, Option.bind_some]
    rcases hother with h | h | h | h
    · simp [bne, hbeq, hargs, hmm2, hmm3, hmm4, h, mismatch_message]
    · simp [bne, hbeq, hargs, hmm2, hmm3, hmm4, h, mismatch_message]
    · simp [bne, hbeq, hargs, hmm2, hmm3, hmm4, h, mismatch_message]
    · simp [bne, hbeq, hargs, hmm2, hmm3, hmm4, h, mismatch_message]

/-- Witness for `dist_gate_mismatch_amended`: the fatal combination at the
concrete (tp=2,pp=2)-recorded checkpoint loaded under (tp=4,pp=1). -/
theorem dist_gate_mismatch_amended_witness :
    load_dist_gate
        { load := ["ckpt"], use_dist_ckpt := true, use_distributed_optimizer := true }
        mismatchLiveCtx mismatchDisk (fun _ => ⟨0, 0, 0, 0, []⟩) [] none none
        ["ckpt"] =
      Except.error (.runtimeError
        (mismatch_message
            (mismatchCkptArgs.tensor_model_parallel_size,
              mismatchCkptArgs.pipeline_model_parallel_size)
            (mismatchLiveCtx.tensor_model_parallel_world_size,
              mismatchLiveCtx.pipeline_model_parallel_world_size) ++
          ": not supported for DistributedOptimizer")) :=
  (dist_gate_mismatch_amended
      { load := ["ckpt"], use_dist_ckpt := true, use_distributed_optimizer := true }
      mismatchLiveCtx mismatchDisk (fun _ => ⟨0, 0, 0, 0, []⟩) [] none none
      ["ckpt"] (.iterNum 4) { args := some mismatchCkptArgs } mismatchCkptArgs
      (Or.inr rfl) (by decide) (by decide) rfl (by decide)).1 rfl rfl rfl rfl

/-- The empty file system. -/
def emptyDisk : Disk :=
  ⟨fun _ => none, fun _ => none, fun _ => none, fun _ => none⟩

/-- C3: a release-checkpoint load or a finetune-mode load yields iteration 0
and leaves the optimizer, the scheduler and the RNG generators exactly as
they were — the restoration blocks return their inputs unchanged regardless
of the `no_load_optim` / `no_load_rng` suppression flags; otherwise the
iteration comes from the record's `iteration` field, falling back to the
older `total_iters` field name, and the absence of both terminates the
process fatally. -/
theorem release_finetune_iteration_and_skip (args : Args) (ctx : Ctx)
    (disk : Disk) (load_dir checkpoint_name : Path) (sd : StateDict)
    (is_dist_ckpt : Bool) (optimizer : Option OptimizerEntry)
    (scheduler : Option Nat) (iteration : Nat) (release : Bool)
    (gens : Generators) :
    ((args.finetune = true ∨ release = true) →
      set_iteration_block args release sd checkpoint_name = .ok 0 ∧
      load_optimizer_block args disk load_dir checkpoint_name sd is_dist_ckpt
          optimizer scheduler iteration release =
        .ok ⟨optimizer, scheduler, iteration, release⟩ ∧
      load_rng_block args ctx checkpoint_name sd release gens = .ok gens) ∧
    (args.finetune = false → release = false →
      set_iteration_block args release sd checkpoint_name =
        match sd.iteration with
        | some it => .ok it
        | none =>
            match sd.total_iters with
            | some it => .ok it
            | none => .error (.sysExit (iteration_exit_message checkpoint_name))) := by
  constructor
  · intro h
    refine ⟨?_, ?_, ?_⟩
    · rcases h with h | h <;> simp [set_iteration_block, h]
    · unfold load_optimizer_block
      rcases h with h | h <;> simp [h]
    · unfold load_rng_block
      rcases h with h | h <;> simp [h]
  · intro hft hrel
    simp [set_iteration_block, hft, hrel]

/-- Witness for `release_finetune_iteration_and_skip`: a finetune load at
concrete inputs skips every restoration. -/
theorem release_finetune_iteration_and_skip_witness :
    set_iteration_block { finetune := true } false {} [] = .ok 0 ∧
    load_optimizer_block { finetune := true } emptyDisk [] [] {} false
        (some (.single 5)) (some 6) 9 false =
      .ok ⟨some (.single 5), some 6, 9, false⟩ ∧
    load_rng_block { finetune := true } {} [] {} false ⟨1, 2, 3, 4, []⟩ =
      .ok ⟨1, 2, 3, 4, []⟩ :=
  (release_finetune_iteration_and_skip { finetune := true } {} emptyDisk [] [] {}
      false (some (.single 5)) (some 6) 9 false ⟨1, 2, 3, 4, []⟩).1 (Or.inl rfl)

/-- C7: on a non-release, non-finetune load with RNG loading enabled, a
present `rng_state` entry whose selected element carries an empty
tracker-states list terminates the load fatally with the `--no-load-rng`
guidance message rather than silently skipping; a missing RNG key (no
`rng_state` entry and no legacy `random_rng_state` key) is fatal with the
same guidance; and the emitted message literally names the `--no-load-rng`
skip flag. -/
theorem rng_restore_corruption_fatal (args : Args) (ctx : Ctx)
    (checkpoint_name : Path) (sd : StateDict) (gens : Generators)
    (hft : args.finetune = false) (hnlr : args.no_load_rng = false) :
    (∀ lst rs, sd.rng_state = some (some lst) →
      lst.get? (if args.data_parallel_random_init then ctx.data_parallel_rank
        else 0) = some rs →
      rs.rng_tracker_states = [] →
      load_rng_block args ctx checkpoint_name sd false gens =
        .error (.sysExit (rng_exit_message checkpoint_name))) ∧
    (sd.rng_state = none → sd.random_rng_state = none →
      load_rng_block args ctx checkpoint_name sd false gens =
        .error (.sysExit (rng_exit_message checkpoint_name))) ∧
    (∃ a b, rng_exit_message checkpoint_name = a ++ "--no-load-rng" ++ b) := by
  refine ⟨?_, ?_, ?_⟩
  · intro lst rs hsd hget hempty
    rw [List.get?_eq_getElem?] at hget
    simp [load_rng_block, hft, hnlr, hsd, hget, hempty]
  · intro hsd hlegacy
    simp [load_rng_block, hft, hnlr, hsd, hlegacy]
  · refine ⟨"Unable to load rng state from checkpoint " ++
        pathToString checkpoint_name ++ ". Specify ",
      " or --finetune to prevent attempting to load the rng state, exiting ...", ?_⟩
    have hsplit : (". Specify --no-load-rng or --finetune to prevent attempting to load the rng state, exiting ..." : String) =
        ". Specify " ++ ("--no-load-rng" ++
          " or --finetune to prevent attempting to load the rng state, exiting ...") := by
      decide
    unfold rng_exit_message
    rw [hsplit]
    simp [String.append_assoc]

/-- Witness for `rng_restore_corruption_fatal`: a record holding a single RNG
snapshot with an empty tracker-states list is rejected fatally. -/
theorem rng_restore_corruption_fatal_witness :
    load_rng_block {} {} ["ckpt"]
        { rng_state := some (some [⟨1, 2, 3, 4, []⟩]) } false ⟨5, 6, 7, 8, []⟩ =
      .error (.sysExit (rng_exit_message ["ckpt"])) :=
  (rng_restore_corruption_fatal {} {} ["ckpt"]
      { rng_state := some (some [⟨1, 2, 3, 4, []⟩]) } ⟨5, 6, 7, 8, []⟩ rfl rfl).1
    [⟨1, 2, 3, 4, []⟩] ⟨1, 2, 3, 4, []⟩ rfl (by decide) rfl

/-- C9: when the load directory holds no checkpoint (no tracker file), no
finetune/pretrained source is configured and the exit-on-missing flag is not
set, `load_checkpoint` does not raise: it returns iteration 0 with a zero
floating-point-operation count and leaves the live model, optimizer,
scheduler and RNG generators untouched. -/
theorem load_without_checkpoint_returns_zero (args : Args) (ctx : Ctx)
    (disk : Disk) (registry : Finset String) (allGens : Nat → Generators)
    (modelIn : List Module) (optimizer : Option OptimizerEntry)
    (sch : Option Nat) (strict : Bool)
    (hpre : args.pretrained_checkpoint = none)
    (hnt : disk.trackers (get_checkpoint_tracker_filename args.load) = none)
    (hex : args.exit_on_missing_checkpoint = false)
    (hroot : disk.distRecords [] = none) :
    load_checkpoint args ctx disk registry allGens modelIn optimizer sch strict =
      Except.ok
        { iteration := 0
          num_floating_point_operations_so_far := 0
          live := { model := modelIn, optimizer := optimizer, scheduler := sch,
                    gens := allGens ctx.data_parallel_rank }
          args := args } := by
  have hgate : load_dist_gate args ctx disk allGens
      ((modelIn.map unwrapLoop).map Module.payload) optimizer sch args.load =
        Except.ok ({ is_dist_ckpt := false } : DistGateResult) := by
    unfold load_dist_gate
    by_cases hg : (args.auto_detect_ckpt_format || args.use_dist_ckpt) = true
    · simp only [hg, if_true, _load_base_checkpoint, hnt, hex, Bool.false_eq_true,
        if_false]
      simp [check_is_distributed_checkpoint, hroot, Except.bind, bind]
    · simp [hg]
  by_cases hz : args.use_zero2 = true
  · simp only [load_checkpoint, hpre, hgate, hz, if_true, Except.bind, bind,
      _load_zero2_checkpoint, hnt]
    simp [Except.pure, pure]
  · simp only [load_checkpoint, hpre, hgate, Except.bind, bind, hz,
      Bool.false_eq_true, if_false, _load_base_checkpoint, hnt]
    simp [Except.pure, pure]

/-- Witness for `load_without_checkpoint_returns_zero` at concrete inputs. -/
theorem load_without_checkpoint_returns_zero_witness :
    load_checkpoint {} {} emptyDisk ∅ (fun _ => ⟨0, 0, 0, 0, []⟩)
        [Module.base 3] (some (.single 1)) (some 2) true =
      Except.ok
        { iteration := 0
          num_floating_point_operations_so_far := 0
          live := { model := [Module.base 3], optimizer := some (.single 1),
                    scheduler := some 2, gens := ⟨0, 0, 0, 0, []⟩ }
          args := {} } :=
  load_without_checkpoint_returns_zero {} {} emptyDisk ∅
    (fun _ => ⟨0, 0, 0, 0, []⟩) [Module.base 3] (some (.single 1)) (some 2) true
    rfl rfl rfl rfl

/-- The events `save_checkpoint` emits before its first barrier: the optional
optimizer shard writes and the optional record write. -/
def savePreEvents (args : Args) (ctx : Ctx) (optimizer : Option OptimizerEntry) :
    List Event :=
  (match optimizer with
   | some _ =>
      if args.use_distributed_optimizer && !args.no_save_optim && !args.use_dist_ckpt
      then [Event.writeOptimShard ctx.global_rank] else []
   | none => []) ++
  (match optimizer with
   | some _ =>
      if args.use_zero2 && !args.no_save_optim
      then [Event.writeOptimShard ctx.global_rank] else []
   | none => []) ++
  (if !ctx.distributed_initialized || ctx.data_modulo_expert_parallel_rank == 0
      || args.use_dist_ckpt
   then [Event.writeCheckpoint ctx.global_rank] else [])

/-- The full event trace of `save_checkpoint` in program order: the
pre-barrier writes, the mandatory barrier (distributed only), the tracker
write (rank 0 or sole process only), and the trailing barrier (distributed
only). -/
lemma save_events_shape (args : Args) (ctx : Ctx) (allGens : Nat → Generators)
    (iteration : Nat) (modelIn : List Module) (optimizer : Option OptimizerEntry)
    (sched : Option Nat) (flops : Nat) (disk : Disk) :
    (save_checkpoint args ctx allGens iteration modelIn optimizer sched
        flops disk).events =
      savePreEvents args ctx optimizer ++
      (if ctx.distributed_initialized then [Event.barrier] else []) ++
      (if !ctx.distributed_initialized || ctx.global_rank == 0
       then [Event.writeTracker ctx.global_rank] else []) ++
      (if ctx.distributed_initialized then [Event.barrier] else []) := by
  rcases optimizer with - | opt <;>
    simp only [save_checkpoint, savePreEvents] <;>
      split_ifs <;> simp

/-- No pre-barrier event is a barrier or a tracker write. -/
lemma savePreEvents_no_tracker (args : Args) (ctx : Ctx)
    (optimizer : Option OptimizerEntry) :
    ∀ e ∈ savePreEvents args ctx optimizer,
      e ≠ Event.barrier ∧ ∀ r, e ≠ Event.writeTracker r := by
  unfold savePreEvents
  rcases optimizer with - | opt <;> split_ifs <;> simp

/-- C4: under distributed execution, `save_checkpoint` writes the tracker
only after the mandatory post-write barrier, only on global rank 0, and a
second barrier follows the tracker update before the function returns; every
other rank's trace has no tracker write at all.  Without distributed
execution the sole process writes the tracker after its pre-barrier writes. -/
theorem save_tracker_write_discipline (args : Args) (ctx : Ctx)
    (allGens : Nat → Generators) (iteration : Nat) (modelIn : List Module)
    (optimizer : Option OptimizerEntry) (sched : Option Nat) (flops : Nat)
    (disk : Disk) :
    (ctx.distributed_initialized = true →
      ∃ pre, (∀ e ∈ pre, e ≠ Event.barrier ∧ ∀ r, e ≠ Event.writeTracker r) ∧
        (save_checkpoint args ctx allGens iteration modelIn optimizer sched
            flops disk).events =
          pre ++ [Event.barrier] ++
          (if ctx.global_rank == 0 then [Event.writeTracker ctx.global_rank]
           else []) ++ [Event.barrier]) ∧
    (ctx.distributed_initialized = false →
      (save_checkpoint args ctx allGens iteration modelIn optimizer sched
          flops disk).events =
        savePreEvents args ctx optimizer ++ [Event.writeTracker ctx.global_rank]) := by
  constructor
  · intro hd
    refine ⟨savePreEvents args ctx optimizer, savePreEvents_no_tracker args ctx optimizer, ?_⟩
    rw [save_events_shape]
    simp [hd]
  · intro hd
    rw [save_events_shape]
    simp [hd]

/-- Witness for `save_tracker_write_discipline`: the distributed rank-0 trace
at concrete inputs. -/
theorem save_tracker_write_discipline_witness :
    ∃ pre, (∀ e ∈ pre, e ≠ Event.barrier ∧ ∀ r, e ≠ Event.writeTracker r) ∧
      (save_checkpoint {} {} (fun _ => ⟨0, 0, 0, 0, []⟩) 2 [Module.base 3]
          (some (.single 1)) (some 2) 5 emptyDisk).events =
        pre ++ [Event.barrier] ++
        (if (0 : Nat) == 0 then [Event.writeTracker 0] else []) ++ [Event.barrier] :=
  (save_tracker_write_discipline {} {} (fun _ => ⟨0, 0, 0, 0, []⟩) 2
      [Module.base 3] (some (.single 1)) (some 2) 5 emptyDisk).1 rfl

/-- The record `save_checkpoint` writes in the monolithic torch format: the
`generate_state_dict` output over the unwrapped stage payloads with the
gathered RNG array and the iteration, plus the FLOPs counter. -/
def torchSavedRecord (args : Args) (ctx : Ctx) (allGens : Nat → Generators)
    (iteration : Nat) (modelIn : List Module) (optimizer : Option OptimizerEntry)
    (sched : Option Nat) (flops : Nat) : StateDict :=
  { generate_state_dict args ((modelIn.map unwrapLoop).map Module.payload)
      optimizer sched (some (get_rng_state ctx allGens false)) (some iteration) with
    num_floating_point_operations_so_far := some flops }

/-- Field projections of `generate_state_dict` when nothing is suppressed. -/
lemma generate_state_dict_fields (args : Args) (model : List Nat)
    (opt : OptimizerEntry) (sch : Nat) (rng : Option (List RngState))
    (it : Option Nat) (hnso : args.no_save_optim = false)
    (hnsr : args.no_save_rng = false) (hz : args.use_zero2 = false) :
    (generate_state_dict args model (some opt) (some sch) rng it).iteration = it ∧
    (generate_state_dict args model (some opt) (some sch) rng it).args = some args ∧
    (generate_state_dict args model (some opt) (some sch) rng it).optimizer =
      some opt ∧
    (generate_state_dict args model (some opt) (some sch) rng it).opt_param_scheduler =
      some sch ∧
    (generate_state_dict args model (some opt) (some sch) rng it).lr_scheduler = none ∧
    (generate_state_dict args model (some opt) (some sch) rng it).rng_state =
      some rng ∧
    (generate_state_dict args model (some opt) (some sch) rng it).total_iters = none ∧
    (generate_state_dict args model (some opt) (some sch) rng it).num_floating_point_operations_so_far =
      none ∧
    ((generate_state_dict args model (some opt) (some sch) rng it).model =
      match model with
      | [m] => some m
      | _ => none) ∧
    ((generate_state_dict args model (some opt) (some sch) rng it).model_per_stage =
      match model with
      | [_] => []
      | ms => ms) := by
  rcases model with - | ⟨m, - | ⟨m2, ms⟩⟩ <;>
    simp [generate_state_dict, hnso, hnsr, hz]

/-- What the disk looks like after a monolithic torch-format
`save_checkpoint` performed by a rank that both writes the record and updates
the tracker. -/
lemma save_torch_disk (args : Args) (ctx : Ctx) (allGens : Nat → Generators)
    (iteration : Nat) (modelIn : List Module) (opt : OptimizerEntry) (sch : Nat)
    (flops : Nat) (disk : Disk)
    (hdist : args.use_dist_ckpt = false) (hz : args.use_zero2 = false)
    (hdo : args.use_distributed_optimizer = false)
    (hw : ctx.distributed_initialized = false ∨
      ctx.data_modulo_expert_parallel_rank = 0)
    (hr0 : ctx.distributed_initialized = false ∨ ctx.global_rank = 0) :
    (save_checkpoint args ctx allGens iteration modelIn (some opt) (some sch)
        flops disk).disk.trackers (get_checkpoint_tracker_filename args.save) =
      some (.iterNum iteration) ∧
    (save_checkpoint args ctx allGens iteration modelIn (some opt) (some sch)
        flops disk).disk.files (get_checkpoint_name args.save iteration false false) =
      some (.modern
        (torchSavedRecord args ctx allGens iteration modelIn (some opt) (some sch)
          flops)) ∧
    (save_checkpoint args ctx allGens iteration modelIn (some opt) (some sch)
        flops disk).disk.distRecords =
      disk.distRecords := by
  have hwb : (!ctx.distributed_initialized ||
      ctx.data_modulo_expert_parallel_rank == 0 || args.use_dist_ckpt) = true := by
    rcases hw with h | h <;> simp [h]
  have hr0b : (!ctx.distributed_initialized || ctx.global_rank == 0) = true := by
    rcases hr0 with h | h <;> simp [h]
  simp only [save_checkpoint, hdist, hz, hdo, Bool.false_eq_true, if_false,
    Bool.and_false, Bool.false_and, Bool.and_true, Bool.true_and, hwb, hr0b,
    if_true, torchSavedRecord]
  simp [Disk.writeTracker, Disk.writeFile, torchSavedRecord, hw, hr0]

/-- The helper `load_model_stages` succeeds whenever the record carries the entries the
stage list expects. -/
lemma load_model_stages_ok (modelIn : List Module) (sd : StateDict)
    (h1 : modelIn.length = 1 → sd.model.isSome)
    (h2 : modelIn.length ≠ 1 → modelIn.length ≤ sd.model_per_stage.length) :
    ∃ ms, load_model_stages modelIn sd = .ok ms := by
  unfold load_model_stages
  by_cases hl : modelIn.length = 1
  · rcases List.length_eq_one.mp hl with ⟨m, rfl⟩
    rcases hm : sd.model with - | e
    · exfalso
      have h3 := h1 hl
      rw [hm] at h3
      simp at h3
    · exact ⟨[m.setPayload e], by simp [hm]⟩
  · have hbeq : (modelIn.length == 1) = false := by simpa using hl
    exact ⟨List.zipWith Module.setPayload modelIn sd.model_per_stage,
      by simp [hbeq, h2 hl]⟩

/-- Restoring a captured snapshot reproduces the generator state exactly. -/
lemma restore_capture (g : Generators) : restoreRng (captureRng g) = g := rfl

/-- A config whose flag fields are rewritten to the values its hypotheses fix
is the config itself. -/
lemma args_canonical (b : Args) (h1 : b.pretrained_checkpoint = none)
    (h2 : b.finetune = false) (h3 : b.use_zero2 = false) (h4 : b.lora = false)
    (h5 : b.consumed_train_samples = 0) (h6 : b.consumed_valid_samples = 0) :
    ({ save := b.save, load := b.load, pretrained_checkpoint := none,
       finetune := false, use_dist_ckpt := b.use_dist_ckpt,
       dist_ckpt_format := b.dist_ckpt_format,
       auto_detect_ckpt_format := b.auto_detect_ckpt_format,
       use_distributed_optimizer := b.use_distributed_optimizer,
       use_zero2 := false, ckpt_fully_parallel_save := b.ckpt_fully_parallel_save,
       no_save_optim := b.no_save_optim, no_save_rng := b.no_save_rng,
       no_load_optim := b.no_load_optim, no_load_rng := b.no_load_rng,
       exit_on_missing_checkpoint := b.exit_on_missing_checkpoint,
       data_parallel_random_init := b.data_parallel_random_init,
       fp16 := b.fp16, bf16 := b.bf16,
       retro_add_retriever := b.retro_add_retriever, lora := false,
       consumed_train_samples := 0, consumed_valid_samples := 0,
       tensor_model_parallel_size := b.tensor_model_parallel_size,
       pipeline_model_parallel_size := b.pipeline_model_parallel_size } : Args) =
      b := by
  cases b
  simp_all

/-- C1: a checkpoint saved by `save_checkpoint` at iteration `i` with
optimizer, scheduler and RNG state included (no suppression flags), loaded
immediately afterwards by `load_checkpoint` under the identical live
configuration (monolithic torch format, non-release, non-finetune, fresh
consumed-sample counters, the saving rank also writing the tracker), returns
exactly `(i, num_floating_point_operations_so_far)` and restores the
process's RNG generators to their captured state, so every subsequent random
sequence is bit-for-bit the one the saved run would have produced; the
optimizer and scheduler states also come back exactly. -/
theorem save_load_roundtrip
    (args : Args) (ctx : Ctx) (allGens : Nat → Generators)
    (iteration flops : Nat) (modelIn : List Module) (opt : OptimizerEntry)
    (sch : Nat) (disk : Disk) (registry : Finset String)
    (optLive : OptimizerEntry) (schLive : Nat)
    (hload : args.load = args.save)
    (hpre : args.pretrained_checkpoint = none)
    (hft : args.finetune = false)
    (hdist : args.use_dist_ckpt = false)
    (hauto : args.auto_detect_ckpt_format = false)
    (hz : args.use_zero2 = false)
    (hdo : args.use_distributed_optimizer = false)
    (hnso : args.no_save_optim = false) (hnsr : args.no_save_rng = false)
    (hnlo : args.no_load_optim = false) (hnlr : args.no_load_rng = false)
    (hlora : args.lora = false)
    (hcts : args.consumed_train_samples = 0)
    (hcvs : args.consumed_valid_samples = 0)
    (hw : ctx.distributed_initialized = false ∨
      ctx.data_modulo_expert_parallel_rank = 0)
    (hr0 : ctx.distributed_initialized = false ∨ ctx.global_rank = 0)
    (hdr : disk.distRecords (get_checkpoint_name args.save iteration false true) =
      none)
    (hdp : ctx.data_parallel_rank < ctx.data_parallel_world_size)
    (hshared : args.data_parallel_random_init = false →
      allGens 0 = allGens ctx.data_parallel_rank)
    (htrk : (allGens (if args.data_parallel_random_init then
        ctx.data_parallel_rank else 0)).tracker_states ≠ []) :
    ∃ res,
      load_checkpoint args ctx
          (save_checkpoint args ctx allGens iteration modelIn (some opt)
            (some sch) flops disk).disk registry allGens modelIn
          (some optLive) (some schLive) true = Except.ok res ∧
      res.iteration = iteration ∧
      res.num_floating_point_operations_so_far = flops ∧
      res.live.gens = allGens ctx.data_parallel_rank ∧
      (∀ n, randomSequence res.live.gens n =
        randomSequence (allGens ctx.data_parallel_rank) n) ∧
      res.live.optimizer = some opt ∧
      res.live.scheduler = some sch := by
  obtain ⟨htrack, hfile, hdrec⟩ :=
    save_torch_disk args ctx allGens iteration modelIn opt sch flops disk
      hdist hz hdo hw hr0
  obtain ⟨f_it, f_args, f_opt, f_sch, f_lrs, f_rng, f_ti, f_fl, f_model, f_mps⟩ :=
    generate_state_dict_fields args ((modelIn.map unwrapLoop).map Module.payload)
      opt sch (some (get_rng_state ctx allGens false)) (some iteration) hnso hnsr hz
  have s_it : (torchSavedRecord args ctx allGens iteration modelIn (some opt)
      (some sch) flops).iteration = some iteration := by
    simpa [torchSavedRecord] using f_it
  have s_args : (torchSavedRecord args ctx allGens iteration modelIn (some opt)
      (some sch) flops).args = some args := by
    simpa [torchSavedRecord] using f_args
  have s_opt : (torchSavedRecord args ctx allGens iteration modelIn (some opt)
      (some sch) flops).optimizer = some opt := by
    simpa [torchSavedRecord] using f_opt
  have s_sch : (torchSavedRecord args ctx allGens iteration modelIn (some opt)
      (some sch) flops).opt_param_scheduler = some sch := by
    simpa [torchSavedRecord] using f_sch
  have s_lrs : (torchSavedRecord args ctx allGens iteration modelIn (some opt)
      (some sch) flops).lr_scheduler = none := by
    simpa [torchSavedRecord] using f_lrs
  have s_rng : (torchSavedRecord args ctx allGens iteration modelIn (some opt)
      (some sch) flops).rng_state = some (some (get_rng_state ctx allGens false)) := by
    simpa [torchSavedRecord] using f_rng
  have s_fl : (torchSavedRecord args ctx allGens iteration modelIn (some opt)
      (some sch) flops).num_floating_point_operations_so_far = some flops := rfl
  have hgate : load_dist_gate args ctx
      (save_checkpoint args ctx allGens iteration modelIn (some opt) (some sch)
        flops disk).disk allGens ((modelIn.map unwrapLoop).map Module.payload)
      (some optLive) (some schLive) args.load =
        Except.ok ({ is_dist_ckpt := false } : DistGateResult) := by
    unfold load_dist_gate
    simp [hauto, hdist]
  have hbase : _load_base_checkpoint
      (save_checkpoint args ctx allGens iteration modelIn (some opt) (some sch)
        flops disk).disk args.load false false =
      Except.ok
        (some (torchSavedRecord args ctx allGens iteration modelIn (some opt)
          (some sch) flops),
          get_checkpoint_name args.save iteration false false, false) := by
    unfold _load_base_checkpoint
    rw [hload]
    simp only [htrack, read_metadata]
    simp [check_is_distributed_checkpoint, hdrec, hdr, hfile]
  have hiterB : set_iteration_block args false
      (torchSavedRecord args ctx allGens iteration modelIn (some opt) (some sch)
        flops) (get_checkpoint_name args.save iteration false false) =
      .ok iteration := by
    simp [set_iteration_block, hft, s_it]
  have hoptB : load_optimizer_block args
      (save_checkpoint args ctx allGens iteration modelIn (some opt) (some sch)
        flops disk).disk args.load
      (get_checkpoint_name args.save iteration false false)
      (torchSavedRecord args ctx allGens iteration modelIn (some opt) (some sch)
        flops) false (some optLive) (some schLive) iteration false =
      .ok ⟨some opt, some sch, iteration, false⟩ := by
    unfold load_optimizer_block
    simp [hft, hnlo, hdo, s_opt, s_lrs, s_sch, Except.bind, bind, Except.pure, pure]
  have hidx : (if args.data_parallel_random_init then ctx.data_parallel_rank
      else 0) < ctx.data_parallel_world_size := by
    split
    · exact hdp
    · exact Nat.lt_of_le_of_lt (Nat.zero_le _) hdp
  have hrngget : (get_rng_state ctx allGens false).get?
      (if args.data_parallel_random_init then ctx.data_parallel_rank else 0) =
      some (captureRng (allGens (if args.data_parallel_random_init then
        ctx.data_parallel_rank else 0))) := by
    unfold get_rng_state
    rw [List.get?_eq_getElem?]
    simp [List.getElem?_range, hidx]
  have hrngB : load_rng_block args ctx
      (get_checkpoint_name args.save iteration false false)
      (torchSavedRecord args ctx allGens iteration modelIn (some opt) (some sch)
        flops) false (allGens ctx.data_parallel_rank) =
      .ok (allGens ctx.data_parallel_rank) := by
    unfold load_rng_block
    have htsb : (captureRng (allGens (if args.data_parallel_random_init then
        ctx.data_parallel_rank else 0))).rng_tracker_states.isEmpty = false :=
      List.isEmpty_eq_false.mpr htrk
    by_cases hdpri : args.data_parallel_random_init = true
    · simp only [hdpri, if_true] at hrngget htsb
      simp only [hft, hnlr, Bool.not_false, Bool.and_self, if_true, s_rng, hdpri,
        hrngget, Bool.false_eq_true, if_false, htsb, restore_capture]
    · have hb : args.data_parallel_random_init = false := by
        simpa using hdpri
      simp only [hb, Bool.false_eq_true, if_false] at hrngget htsb
      simp only [hft, hnlr, Bool.not_false, Bool.and_self, if_true, s_rng, hb,
        hrngget, Bool.false_eq_true, if_false, htsb, restore_capture]
      rw [hshared hb]
  have hmodelB : ∃ ms, load_model_stages modelIn
      (torchSavedRecord args ctx allGens iteration modelIn (some opt) (some sch)
        flops) = .ok ms := by
    apply load_model_stages_ok
    · intro hl
      rcases List.length_eq_one.mp hl with ⟨m, rfl⟩
      have : (torchSavedRecord args ctx allGens iteration [m] (some opt) (some sch)
          flops).model = some (unwrapLoop m).payload := by
        simpa [torchSavedRecord] using f_model
      simp [this]
    · intro hl
      rcases modelIn with - | ⟨m, - | ⟨m2, rest⟩⟩
      · have : (torchSavedRecord args ctx allGens iteration [] (some opt) (some sch)
            flops).model_per_stage = [] := by
          simpa [torchSavedRecord] using f_mps
        simp [this]
      · exact absurd rfl hl
      · have : (torchSavedRecord args ctx allGens iteration (m :: m2 :: rest)
            (some opt) (some sch) flops).model_per_stage =
            ((m :: m2 :: rest).map unwrapLoop).map Module.payload := by
          simpa [torchSavedRecord] using f_mps
        simp [this]
  obtain ⟨ms, hms⟩ := hmodelB
  refine ⟨{ iteration := iteration
            num_floating_point_operations_so_far := flops
            live := { model := ms, optimizer := some opt, scheduler := some sch,
                      gens := allGens ctx.data_parallel_rank }
            args := args }, ?_, rfl, rfl, rfl, fun n => rfl, rfl, rfl⟩
  simp only [load_checkpoint, hpre, Except.bind, bind, hgate, hz,
    Bool.false_eq_true, if_false, hbase, hiterB, s_fl, Option.getD_some, hcts,
    hcvs, s_args, hft, hlora, hms]
  rw [args_canonical args hpre hft hz hlora hcts hcvs]
  simp [hoptB, hrngB, Except.pure, pure]
  exact hlora

/-- Witness for `save_load_roundtrip` at a concrete single-process
configuration: save at iteration 5 with 42 FLOPs, then load from the same
directory. -/
theorem save_load_roundtrip_witness :
    ∃ res,
      load_checkpoint { save := ["ckpt"], load := ["ckpt"] } {}
          (save_checkpoint { save := ["ckpt"], load := ["ckpt"] } {}
            (fun _ => ⟨1, 2, 3, 4, [("t", 7)]⟩) 5 [Module.ddp (Module.base 3)]
            (some (.single 11)) (some 9) 42 emptyDisk).disk ∅
          (fun _ => ⟨1, 2, 3, 4, [("t", 7)]⟩) [Module.ddp (Module.base 3)]
          (some (.single 0)) (some 0) true = Except.ok res ∧
      res.iteration = 5 ∧
      res.num_floating_point_operations_so_far = 42 ∧
      res.live.gens = (fun _ => (⟨1, 2, 3, 4, [("t", 7)]⟩ : Generators)) 0 ∧
      (∀ n, randomSequence res.live.gens n =
        randomSequence ((fun _ => (⟨1, 2, 3, 4, [("t", 7)]⟩ : Generators)) 0) n) ∧
      res.live.optimizer = some (.single 11) ∧
      res.live.scheduler = some 9 :=
  save_load_roundtrip { save := ["ckpt"], load := ["ckpt"] } {}
    (fun _ => ⟨1, 2, 3, 4, [("t", 7)]⟩) 5 42 [Module.ddp (Module.base 3)]
    (.single 11) 9 emptyDisk ∅ (.single 0) 0
    rfl rfl rfl rfl rfl rfl rfl rfl rfl rfl rfl rfl rfl rfl (Or.inr rfl)
    (Or.inr rfl) rfl (by decide) (fun _ => rfl) (by decide)

end Teletron

